import Mathlib

/-!
Verification of the core logic of the dried-horsemeat dashboard (`src/app.py`).

The application loads three in-memory tables (nutrition by processing stage,
processing parameters by stage, quality samples for 20 batches), scales six
nutrition fields linearly by a user-chosen portion weight, looks up processing
parameters positionally by stage name, and exports the nutrition table as CSV.

Numbers are modelled as exact rationals (`ℚ`): every arithmetic operation the
source performs on its data (multiplication by `weight / 100`, identity reads)
is exact on the decimal values involved, so the rational model agrees with the
floating-point program on all values that the claims mention.
-/

/-- One row of the nutrition table `nutrition_data` in
`load_horsemeat_jerky_data` (src/app.py lines 23-32): a stage name (column
`Этап`) and seven per-100g figures, in the column order of the source dict. -/
structure NutritionRow where
  stage : String
  moisture : ℚ
  protein : ℚ
  fat : ℚ
  calories : ℚ
  sodium : ℚ
  iron : ℚ
  zinc : ℚ
deriving DecidableEq

/-- The fixed three-row nutrition table from src/app.py lines 23-32
(`Свежая` = raw, `Полувяленая` = semi-dried, `Полностью вяленая` = fully dried). -/
def nutrition_data : List NutritionRow :=
  [ ⟨ "Свежая конина", 73.0, 21.4, 2.7, 113, 53, 3.2, 4.8 ⟩,
    ⟨ "Полувяленая конина", 45.0, 35.2, 4.5, 186, 850, 5.3, 7.9 ⟩,
    ⟨ "Полностью вяленая конина", 18.0, 48.5, 6.2, 256, 1200, 7.4, 11.2 ⟩ ]

/-- One row of the processing-parameters table `processing_params`
(src/app.py lines 35-40): salting days, drying temperature, relative
humidity, drying days.  The source table has no stage column; rows are
aligned with `nutrition_data` purely by position. -/
structure ProcessingParams where
  salting_days : ℕ
  drying_temp : ℕ
  humidity : ℕ
  drying_days : ℕ
deriving DecidableEq

/-- The fixed three-row processing table from src/app.py lines 35-40,
read row-wise out of the column dict. -/
def processing_params : List ProcessingParams :=
  [ ⟨ 3, 12, 70, 15 ⟩, ⟨ 5, 15, 65, 21 ⟩, ⟨ 7, 18, 60, 30 ⟩ ]

/-- The scaled output computed at src/app.py lines 96-103: exactly the six
dict keys `Белки`, `Жиры`, `Калории`, `Натрий`, `Железо`, `Цинк`
(protein, fat, calories, sodium, iron, zinc); moisture has no key there. -/
structure NutritionResult where
  protein : ℚ
  fat : ℚ
  calories : ℚ
  sodium : ℚ
  iron : ℚ
  zinc : ℚ
deriving DecidableEq

/-- The scaling computation of src/app.py lines 95-103: `weight_factor =
weight / 100` and each output field is the stage field times the factor.
The source performs no validation here; it computes for whatever weight it
receives. -/
def nutrition_results (stage_data : NutritionRow) (weight : ℚ) : NutritionResult :=
  let weight_factor := weight / 100
  { protein := stage_data.protein * weight_factor
    fat := stage_data.fat * weight_factor
    calories := stage_data.calories * weight_factor
    sodium := stage_data.sodium * weight_factor
    iron := stage_data.iron * weight_factor
    zinc := stage_data.zinc * weight_factor }

/-- The UI weight input of src/app.py lines 70-77: `st.number_input` with
`min_value=1`, `max_value=500`; it accepts exactly the integers in [1, 500]. -/
def weight_input_accepts (w : ℤ) : Bool :=
  decide (1 ≤ w) && decide (w ≤ 500)

/-- First index of a row whose `Этап` equals the given name, as computed by
the pandas filter-then-first-index idiom at src/app.py line 81
(`nutrition_df[nutrition_df['Этап'] == product_stage].index[0]`). -/
def findStage (name : String) : List NutritionRow → Option ℕ
  | [] => none
  | r :: rs => if r.stage = name then some 0 else (findStage name rs).map (· + 1)

/-- The `stage_index` of src/app.py line 81: position of the selected stage
name in the nutrition table, `none` when the filter comes back empty (the
source then raises on `.index[0]`). -/
def stage_index (product_stage : String) : Option ℕ :=
  findStage product_stage nutrition_data

/-- Outcome of the stage-parameter lookup: either a processing row, or the
stage-not-found failure (the `IndexError` the source raises at line 81 when
the selected stage is absent from the nutrition table). -/
inductive LookupResult where
  | ok : ProcessingParams → LookupResult
  | stageNotFound : LookupResult
deriving DecidableEq

/-- The stage-parameter lookup of src/app.py lines 81-86: resolve the stage
name to a positional index via the nutrition table, then read the processing
table at that index (`.iloc[stage_index]`). -/
def paramsFor (stage : String) (processing : List ProcessingParams) : LookupResult :=
  match stage_index stage with
  | none => LookupResult.stageNotFound
  | some i =>
    match processing.get? i with
    | none => LookupResult.stageNotFound
    | some p => LookupResult.ok p

/-- One row of the quality table `quality_data` (src/app.py lines 43-50):
a batch identifier and five measured figures. -/
structure QualityRow where
  batch : String
  moisture : ℚ
  salt : ℚ
  protein : ℚ
  pH : ℚ
  aw : ℚ
deriving DecidableEq

/-- One realisation of the ambient randomness consumed by
`np.random.normal` at src/app.py lines 45-49: for each of the five sampled
columns, the sequence of draws.  Normal distributions have full support, so
any rational sequence is a possible realisation. -/
structure QualityDraws where
  moisture : ℕ → ℚ
  salt : ℕ → ℚ
  protein : ℕ → ℚ
  pH : ℕ → ℚ
  aw : ℕ → ℚ

/-- Batch identifier `KM{i:02d}` from src/app.py line 44: `KM` followed by
the index zero-padded to two digits. -/
def batchId (i : ℕ) : String :=
  "KM" ++ (if i < 10 then "0" ++ toString i else toString i)

/-- The quality table of src/app.py lines 43-50: batch ids KM01..KM20 and,
for each row, the five normal draws stored exactly as drawn — the source
applies no clamping or bounds check after sampling. -/
def quality_data (d : QualityDraws) : List QualityRow :=
  (List.range 20).map (fun i =>
    ⟨ batchId (i + 1), d.moisture i, d.salt i, d.protein i, d.pH i, d.aw i ⟩)

/-- The triple of tables returned by `load_horsemeat_jerky_data`
(src/app.py line 52). -/
structure Tables where
  nutrition : List NutritionRow
  processing : List ProcessingParams
  quality : List QualityRow
deriving DecidableEq

/-- The body of `load_horsemeat_jerky_data` (src/app.py lines 21-52): the two
fixed tables plus the quality table built from the ambient random draws. -/
def load_horsemeat_jerky_data (d : QualityDraws) : Tables :=
  ⟨ nutrition_data, processing_params, quality_data d ⟩

/-- The `@st.cache_data` memoization on `load_horsemeat_jerky_data`
(src/app.py line 20): a call first consults the session cache; only on a
miss does it run the loader (consuming fresh ambient randomness) and store
the result.  Returns the tables and the updated cache. -/
def cachedLoad (cache : Option Tables) (d : QualityDraws) : Tables × Option Tables :=
  match cache with
  | some t => (t, some t)
  | none =>
    let t := load_horsemeat_jerky_data d
    (t, some t)

/-- Column-name header of `nutrition_df`, in the key order of the source
dict (src/app.py lines 23-32); `to_csv` writes these as the header row. -/
def nutrition_csv_header : List String :=
  [ "Этап", "Влага_%", "Белки_г", "Жиры_г", "Калории_ккал", "Натрий_мг", "Железо_мг", "Цинк_мг" ]

/-- Decimal rendering of a float column cell, as pandas `to_csv` prints the
values of this table: all float cells here carry one decimal digit, so the
cell is `<integer part>.<tenths digit>`.  Defined for non-negative rationals
whose denominator divides 10 (every float cell of `nutrition_data` is one). -/
def floatCell (q : ℚ) : String :=
  let n := (q * 10).num.toNat
  toString (n / 10) ++ "." ++ toString (n % 10)

/-- Decimal rendering of an integer column cell (`Калории_ккал`,
`Натрий_мг` are int64 columns), as pandas `to_csv` prints them. -/
def intCell (q : ℚ) : String :=
  toString q.num.toNat

/-- The cells of one CSV data row, in header order: the stage name, the five
float cells, with the two integer columns rendered without a decimal point. -/
def rowCells (r : NutritionRow) : List String :=
  [ r.stage, floatCell r.moisture, floatCell r.protein, floatCell r.fat,
    intCell r.calories, intCell r.sodium, floatCell r.iron, floatCell r.zinc ]

/-- The CSV text produced by `nutrition_df.to_csv(index=False)` at
src/app.py line 263: header row, then one comma-separated line per nutrition
row, each line terminated by a newline. -/
def to_csv (rows : List NutritionRow) : String :=
  String.intercalate "\n"
    (String.intercalate "," nutrition_csv_header :: rows.map (fun r => String.intercalate "," (rowCells r)))
  ++ "\n"

/-- The download file name at src/app.py line 267:
a fixed descriptive stem, an underscore, the `YYYYMMDD` date, and `.csv`. -/
def export_file_name (date : String) : String :=
  "данные_питательности_вяленой_конины_" ++ date ++ ".csv"

/-- A generic CSV reader for the exported text: split into lines, drop the
trailing empty line, split each line on commas. -/
def parseCsv (s : String) : List (List String) :=
  ((s.data.splitOn '\n').filter (fun l => l ≠ [])).map (fun line =>
    (line.splitOn ',').map (fun cs => String.mk cs))

/-- Reads a non-empty run of decimal digits as a natural number. -/
def digitsToNat (cs : List Char) : Option ℕ :=
  if cs = [] then none
  else cs.foldl (fun acc c =>
    match acc with
    | none => none
    | some n => if c.isDigit then some (n * 10 + (c.toNat - 48)) else none) (some 0)

/-- Reads a CSV numeric cell into (integer part, fraction digits value,
fraction length): a plain integer has an empty fraction. -/
def parseDecimalParts (cs : List Char) : Option (ℕ × ℕ × ℕ) :=
  match cs.splitOn '.' with
  | [a] => (digitsToNat a).map (fun n => (n, 0, 0))
  | [a, b] =>
    match digitsToNat a, digitsToNat b with
    | some x, some y => some (x, y, b.length)
    | _, _ => none
  | _ => none

/-- The exact rational a parsed numeric cell denotes. -/
def partsToRat (p : ℕ × ℕ × ℕ) : ℚ :=
  (p.1 : ℚ) + (p.2.1 : ℚ) / (10 : ℚ) ^ p.2.2

/-- Reads a CSV numeric cell back into an exact rational. -/
def parseDecimal (cs : List Char) : Option ℚ :=
  (parseDecimalParts cs).map partsToRat

/-- All seven numeric fields of a nutrition row are non-negative. -/
def RowNonneg (r : NutritionRow) : Prop :=
  0 ≤ r.moisture ∧ 0 ≤ r.protein ∧ 0 ≤ r.fat ∧ 0 ≤ r.calories ∧
  0 ≤ r.sodium ∧ 0 ≤ r.iron ∧ 0 ≤ r.zinc

/-- Outcome of a scaler that validates its weight: a result or the
invalid-input failure. -/
inductive ScaleOutcome where
  | ok : NutritionResult → ScaleOutcome
  | invalidInput : ScaleOutcome
deriving DecidableEq

/-- Modelled from the spec: the Scaler contract of the specification
(section 4.2 / section 7) demands that the scaler itself re-validate the
weight against [1, 500] and refuse to compute out of range, signalling
`InvalidInputError`.  No such re-validation exists in src/app.py — the only
range check there is the `st.number_input` bound at lines 70-77 — so this
definition follows the specification's words, for comparison with the
source's `nutrition_results`. -/
def scale_spec (s : NutritionRow) (w : ℤ) : ScaleOutcome :=
  if 1 ≤ w ∧ w ≤ 500 then ScaleOutcome.ok (nutrition_results s (w : ℚ))
  else ScaleOutcome.invalidInput

/-- Each factor `w / 100` is monotone in the weight. -/
theorem div100_mono (w1 w2 : ℚ) (h : w1 ≤ w2) : w1 / 100 ≤ w2 / 100 := by
  rw [div_eq_mul_inv, div_eq_mul_inv]
  exact mul_le_mul_of_nonneg_right h (by norm_num)

/-- C1: for every stage row and every weight in [1, 500], the scaler returns
exactly the six fields protein, fat, calories, sodium, iron, zinc, each the
per-100g field times `w / 100`, computed exactly; the output carries no
moisture field (a `NutritionResult` is precisely its six fields). -/
theorem nutrition_scaling_exact (s : NutritionRow) (w : ℤ) (h1 : 1 ≤ w) (h2 : w ≤ 500) :
    (nutrition_results s (w : ℚ)).protein = s.protein * ((w : ℚ) / 100)
  ∧ (nutrition_results s (w : ℚ)).fat = s.fat * ((w : ℚ) / 100)
  ∧ (nutrition_results s (w : ℚ)).calories = s.calories * ((w : ℚ) / 100)
  ∧ (nutrition_results s (w : ℚ)).sodium = s.sodium * ((w : ℚ) / 100)
  ∧ (nutrition_results s (w : ℚ)).iron = s.iron * ((w : ℚ) / 100)
  ∧ (nutrition_results s (w : ℚ)).zinc = s.zinc * ((w : ℚ) / 100)
  ∧ ∀ r : NutritionResult, r = ⟨ r.protein, r.fat, r.calories, r.sodium, r.iron, r.zinc ⟩ :=
  ⟨ rfl, rfl, rfl, rfl, rfl, rfl, fun _ => rfl ⟩

/-- Witness for C1 at the raw-stage row and weight 50. -/
theorem nutrition_scaling_exact_witness :
    (nutrition_results ⟨ "Свежая конина", 73.0, 21.4, 2.7, 113, 53, 3.2, 4.8 ⟩ ((50 : ℤ) : ℚ)).protein
      = (⟨ "Свежая конина", 73.0, 21.4, 2.7, 113, 53, 3.2, 4.8 ⟩ : NutritionRow).protein * (((50 : ℤ) : ℚ) / 100) :=
  (nutrition_scaling_exact ⟨ "Свежая конина", 73.0, 21.4, 2.7, 113, 53, 3.2, 4.8 ⟩ 50
    (by decide) (by decide)).1

/-- C2, counterexample: the scaling computation of src/app.py lines 95-103
does not fail on out-of-range weights — at weight 0 it silently computes the
all-zero result and at weight 501 a scaled result, where the specification's
re-validating scaler would refuse with `InvalidInputError`. -/
theorem scaler_no_revalidation_cex :
    nutrition_results ⟨ "Полностью вяленая конина", 18.0, 48.5, 6.2, 256, 1200, 7.4, 11.2 ⟩ 0
      = ⟨ 0, 0, 0, 0, 0, 0 ⟩
  ∧ nutrition_results ⟨ "Полностью вяленая конина", 18.0, 48.5, 6.2, 256, 1200, 7.4, 11.2 ⟩ 501
      = ⟨ 242.985, 31.062, 1282.56, 6012, 37.074, 56.112 ⟩
  ∧ scale_spec ⟨ "Полностью вяленая конина", 18.0, 48.5, 6.2, 256, 1200, 7.4, 11.2 ⟩ 0
      = ScaleOutcome.invalidInput
  ∧ scale_spec ⟨ "Полностью вяленая конина", 18.0, 48.5, 6.2, 256, 1200, 7.4, 11.2 ⟩ 501
      = ScaleOutcome.invalidInput := by
  refine ⟨ ?_, ?_, ?_, ?_ ⟩
  · simp [nutrition_results]
  · simp [nutrition_results]
    norm_num
  · simp [scale_spec]
  · simp [scale_spec]

/-- C2, amended: range validation lives only at the input surface — the
`st.number_input` widget accepts exactly the integer weights in [1, 500], so
weights 1 and 500 reach the scaler and weights 0 and 501 do not — while the
scaling computation itself performs no re-validation: it returns the
linearly scaled six-field result for every weight it is handed. -/
theorem weight_validation_at_input_only :
    (∀ w : ℤ, weight_input_accepts w = true ↔ 1 ≤ w ∧ w ≤ 500)
  ∧ (∀ (s : NutritionRow) (w : ℚ),
      nutrition_results s w =
        ⟨ s.protein * (w / 100), s.fat * (w / 100), s.calories * (w / 100),
          s.sodium * (w / 100), s.iron * (w / 100), s.zinc * (w / 100) ⟩) :=
  ⟨ fun w => by simp [weight_input_accepts], fun _ _ => rfl ⟩

/-- C7: for the fully-dried row and weight 50 the factor is 0.5 and the
scaler returns protein 24.25, fat 3.1, calories 128, sodium 600, iron 3.7,
zinc 5.6. -/
theorem fully_dried_50g_scenario :
    nutrition_data.get? 2 = some ⟨ "Полностью вяленая конина", 18.0, 48.5, 6.2, 256, 1200, 7.4, 11.2 ⟩
  ∧ (nutrition_data.get? 2).map (fun r => nutrition_results r 50)
      = some ⟨ 24.25, 3.1, 128, 600, 3.7, 5.6 ⟩
  ∧ (50 : ℚ) / 100 = 0.5 := by
  refine ⟨ rfl, ?_, by norm_num ⟩
  simp [nutrition_data, nutrition_results]
  norm_num

/-- C8: with non-negative stage values the scaler is monotone in the weight,
field by field, on [1, 500]. -/
theorem scaling_monotone_in_weight (s : NutritionRow) (hs : RowNonneg s) (w1 w2 : ℚ)
    (h1 : 1 ≤ w1) (h12 : w1 < w2) (h2 : w2 ≤ 500) :
    (nutrition_results s w1).protein ≤ (nutrition_results s w2).protein
  ∧ (nutrition_results s w1).fat ≤ (nutrition_results s w2).fat
  ∧ (nutrition_results s w1).calories ≤ (nutrition_results s w2).calories
  ∧ (nutrition_results s w1).sodium ≤ (nutrition_results s w2).sodium
  ∧ (nutrition_results s w1).iron ≤ (nutrition_results s w2).iron
  ∧ (nutrition_results s w1).zinc ≤ (nutrition_results s w2).zinc := by
  obtain ⟨ -, hp, hf, hc, hna, hi, hz ⟩ := hs
  have hw : w1 / 100 ≤ w2 / 100 := div100_mono w1 w2 h12.le
  exact ⟨ mul_le_mul_of_nonneg_left hw hp, mul_le_mul_of_nonneg_left hw hf,
    mul_le_mul_of_nonneg_left hw hc, mul_le_mul_of_nonneg_left hw hna,
    mul_le_mul_of_nonneg_left hw hi, mul_le_mul_of_nonneg_left hw hz ⟩

/-- Witness for C8 at the raw-stage row and weights 20 < 100. -/
theorem scaling_monotone_in_weight_witness :
    (nutrition_results ⟨ "Свежая конина", 73.0, 21.4, 2.7, 113, 53, 3.2, 4.8 ⟩ 20).protein
      ≤ (nutrition_results ⟨ "Свежая конина", 73.0, 21.4, 2.7, 113, 53, 3.2, 4.8 ⟩ 100).protein :=
  (scaling_monotone_in_weight ⟨ "Свежая конина", 73.0, 21.4, 2.7, 113, 53, 3.2, 4.8 ⟩
    (by norm_num [RowNonneg]) 20 100 (by norm_num) (by norm_num) (by norm_num)).1

/-- C3: for each of the three positions, looking up the stage name of the
i-th nutrition row returns the i-th processing row. -/
theorem params_positional_round_trip :
    (nutrition_data.get? 0).map (fun r => paramsFor r.stage processing_params)
      = (processing_params.get? 0).map LookupResult.ok
  ∧ (nutrition_data.get? 1).map (fun r => paramsFor r.stage processing_params)
      = (processing_params.get? 1).map LookupResult.ok
  ∧ (nutrition_data.get? 2).map (fun r => paramsFor r.stage processing_params)
      = (processing_params.get? 2).map LookupResult.ok := by
  refine ⟨ ?_, ?_, ?_ ⟩ <;> decide

/-- C4: a stage name outside the known set of three makes the lookup fail
with the stage-not-found error, not succeed and not fail otherwise. -/
theorem unknown_stage_fails (name : String)
    (h : name ∉ nutrition_data.map NutritionRow.stage) :
    paramsFor name processing_params = LookupResult.stageNotFound := by
  simp [nutrition_data] at h
  obtain ⟨ h1, h2, h3 ⟩ := h
  simp [paramsFor, stage_index, findStage, nutrition_data, Ne.symm h1, Ne.symm h2, Ne.symm h3]

/-- Witness for C4 at a concrete unknown stage name. -/
theorem unknown_stage_fails_witness :
    paramsFor "Копченая конина" processing_params = LookupResult.stageNotFound :=
  unknown_stage_fails "Копченая конина" (by decide)

/-- C5: a second load within one session returns the very tables the first
returned (the memoized value, quality samples included); across sessions the
nutrition and processing tables are identical whatever the randomness, and
the quality table always has 20 rows carrying the fixed batch identifiers. -/
theorem load_memoized_and_stable (d1 d2 : QualityDraws) :
    (cachedLoad (cachedLoad none d1).2 d2).1 = (cachedLoad none d1).1
  ∧ (load_horsemeat_jerky_data d1).nutrition = (load_horsemeat_jerky_data d2).nutrition
  ∧ (load_horsemeat_jerky_data d1).processing = (load_horsemeat_jerky_data d2).processing
  ∧ (load_horsemeat_jerky_data d1).quality.length = 20
  ∧ (load_horsemeat_jerky_data d1).quality.map QualityRow.batch
      = (load_horsemeat_jerky_data d2).quality.map QualityRow.batch := by
  refine ⟨ rfl, rfl, rfl, ?_, ?_ ⟩
  · simp [load_horsemeat_jerky_data, quality_data]
  · simp [load_horsemeat_jerky_data, quality_data, List.map_map, Function.comp]

/-- C9: the loaded tables satisfy the data-model invariants: non-negative
nutrition values, exactly three rows with unique stage names in the fixed
raw, semi-dried, fully-dried order, and a processing table of the same row
count in the same fixed order. -/
theorem dataset_invariants :
    (∀ r ∈ nutrition_data, RowNonneg r)
  ∧ nutrition_data.length = 3
  ∧ nutrition_data.map NutritionRow.stage =
      [ "Свежая конина", "Полувяленая конина", "Полностью вяленая конина" ]
  ∧ (nutrition_data.map NutritionRow.stage).Nodup
  ∧ processing_params.length = nutrition_data.length
  ∧ processing_params = [ ⟨ 3, 12, 70, 15 ⟩, ⟨ 5, 15, 65, 21 ⟩, ⟨ 7, 18, 60, 30 ⟩ ] := by
  refine ⟨ ?_, rfl, by decide, by decide, rfl, rfl ⟩
  intro r hr
  simp [nutrition_data] at hr
  rcases hr with h | h | h <;> subst h <;> norm_num [RowNonneg]

/-- C10: the quality table stores the five per-field random draws exactly as
drawn — no clamping or bounds check — so a realisation of the ambient
randomness can put a physically impossible value (negative moisture,
negative water activity) in a row; only the batch identifiers are fixed:
KM01..KM20, zero-padded, pairwise distinct. -/
theorem quality_samples_unclamped :
    (∀ d : QualityDraws,
        (quality_data d).map QualityRow.moisture = (List.range 20).map d.moisture
      ∧ (quality_data d).map QualityRow.salt = (List.range 20).map d.salt
      ∧ (quality_data d).map QualityRow.protein = (List.range 20).map d.protein
      ∧ (quality_data d).map QualityRow.pH = (List.range 20).map d.pH
      ∧ (quality_data d).map QualityRow.aw = (List.range 20).map d.aw
      ∧ (quality_data d).map QualityRow.batch = (List.range 20).map (fun i => batchId (i + 1)))
  ∧ (∃ d : QualityDraws, ∃ r ∈ quality_data d, r.moisture < 0 ∧ r.aw < 0)
  ∧ ((List.range 20).map (fun i => batchId (i + 1))).Nodup
  ∧ (List.range 20).map (fun i => batchId (i + 1)) =
      [ "KM01", "KM02", "KM03", "KM04", "KM05", "KM06", "KM07", "KM08", "KM09", "KM10",
        "KM11", "KM12", "KM13", "KM14", "KM15", "KM16", "KM17", "KM18", "KM19", "KM20" ] := by
  refine ⟨ ?_, ?_, by decide, by decide ⟩
  · intro d
    refine ⟨ ?_, ?_, ?_, ?_, ?_, ?_ ⟩ <;>
      simp [quality_data, List.map_map, Function.comp]
  · refine ⟨ ⟨ fun _ => -1, fun _ => -1, fun _ => -1, fun _ => -1, fun _ => -1 ⟩, ?_ ⟩
    refine ⟨ ⟨ batchId 1, -1, -1, -1, -1, -1 ⟩, ?_, by norm_num, by norm_num ⟩
    exact List.mem_map_of_mem _ (by simp)

set_option maxRecDepth 8000 in
/-- The exported CSV text, evaluated: header row then the three data rows,
comma-separated, newline-terminated. -/
theorem to_csv_eval : to_csv nutrition_data =
    "Этап,Влага_%,Белки_г,Жиры_г,Калории_ккал,Натрий_мг,Железо_мг,Цинк_мг\nСвежая конина,73.0,21.4,2.7,113,53,3.2,4.8\nПолувяленая конина,45.0,35.2,4.5,186,850,5.3,7.9\nПолностью вяленая конина,18.0,48.5,6.2,256,1200,7.4,11.2\n" := by
  simp [to_csv, nutrition_data, nutrition_csv_header, rowCells, floatCell, intCell]
  norm_num
  decide

/-- Parsing cells to rationals factors through parsing them to parts. -/
theorem parse_cells_via_parts (rows : List (List String))
    (parts : List (List (Option (ℕ × ℕ × ℕ))))
    (h : rows.map (fun row => row.map (fun c => parseDecimalParts c.data)) = parts) :
    rows.map (fun row => row.map (fun c => parseDecimal c.data))
      = parts.map (fun row => row.map (Option.map partsToRat)) := by
  subst h
  simp [parseDecimal, List.map_map, Function.comp]

set_option maxRecDepth 8000 in
/-- C6: the export serializes the 3-row nutrition table as comma-separated
text whose first row is the column-name header, offered under the
timestamped name `<prefix>_<YYYYMMDD>.csv`; parsing the exported text
recovers the column names, the stage names, and the exact numeric values of
the in-memory table. -/
theorem csv_export_round_trip :
    (∀ date : String, export_file_name date =
        "данные_питательности_вяленой_конины" ++ "_" ++ date ++ ".csv")
  ∧ (parseCsv (to_csv nutrition_data)).head? = some nutrition_csv_header
  ∧ (parseCsv (to_csv nutrition_data)).length = nutrition_data.length + 1
  ∧ ((parseCsv (to_csv nutrition_data)).drop 1).map (fun row => row.head?)
      = nutrition_data.map (fun r => some r.stage)
  ∧ (((parseCsv (to_csv nutrition_data)).drop 1).map (List.drop 1)).map
        (fun row => row.map (fun c => parseDecimal c.data))
      = nutrition_data.map (fun r =>
          [ some r.moisture, some r.protein, some r.fat, some r.calories,
            some r.sodium, some r.iron, some r.zinc ]) := by
  have hstem : ("данные_питательности_вяленой_конины" ++ "_" : String)
      = "данные_питательности_вяленой_конины_" := by decide
  refine ⟨ ?_, ?_, ?_, ?_, ?_ ⟩
  · intro date
    rw [hstem]
    rfl
  · rw [to_csv_eval]
    decide
  · rw [to_csv_eval]
    decide
  · rw [to_csv_eval]
    decide
  · rw [to_csv_eval]
    have hcells : ((parseCsv "Этап,Влага_%,Белки_г,Жиры_г,Калории_ккал,Натрий_мг,Железо_мг,Цинк_мг\nСвежая конина,73.0,21.4,2.7,113,53,3.2,4.8\nПолувяленая конина,45.0,35.2,4.5,186,850,5.3,7.9\nПолностью вяленая конина,18.0,48.5,6.2,256,1200,7.4,11.2\n").drop 1).map (List.drop 1)
        = [ [ "73.0", "21.4", "2.7", "113", "53", "3.2", "4.8" ],
            [ "45.0", "35.2", "4.5", "186", "850", "5.3", "7.9" ],
            [ "18.0", "48.5", "6.2", "256", "1200", "7.4", "11.2" ] ] := by decide
    rw [hcells]
    rw [parse_cells_via_parts _
        [ [ some (73, 0, 1), some (21, 4, 1), some (2, 7, 1), some (113, 0, 0),
            some (53, 0, 0), some (3, 2, 1), some (4, 8, 1) ],
          [ some (45, 0, 1), some (35, 2, 1), some (4, 5, 1), some (186, 0, 0),
            some (850, 0, 0), some (5, 3, 1), some (7, 9, 1) ],
          [ some (18, 0, 1), some (48, 5, 1), some (6, 2, 1), some (256, 0, 0),
            some (1200, 0, 0), some (7, 4, 1), some (11, 2, 1) ] ]
        (by decide)]
    simp [partsToRat, nutrition_data]
    norm_num
